import Mathlib

/-! Shallow embedding of the openclaw-voice protocol client core: the
wire-frame schema and builders from src/lib/protocol.ts, the single
connection session hook from src/hooks/useGateway.ts, and the multi-agent
session manager hook from src/hooks/useMultiGateway.ts.

Ambient JS effects are made explicit: the process-wide request counter is
threaded as a Nat, Date.now() and the Math.random() suffix are passed as
parameters, WebSocket sends are recorded in an ordered log, and React
state setters become fields of an explicit state record. -/

/-- A JSON-like value, used to model serialized wire frames and the params
objects of requests. -/
inductive Jx where
  | str (s : String)
  | num (n : Int)
  | boolv (b : Bool)
  | obj (fields : List (String × Jx))
  | arr (elems : List Jx)

/-- Field lookup in a JSON object value. -/
def Jx.lookup : Jx → String → Option Jx
  | .obj fields, k => List.lookup k fields
  | _, _ => none

/-- One decimal digit rendered as a character. -/
def digitToChar (d : Nat) : Char := Char.ofNat (48 + d)

/-- Decimal rendering of a natural number: the JS conversion String(n)
applied to the request counter in nextId. -/
def decimalString (n : Nat) : String :=
  if n = 0 then "0" else String.mk (((Nat.digits 10 n).map digitToChar).reverse)

/-- Reading a decimal digit string back as a natural number; this is the
spec notion of parsing an id string as an integer. -/
def parseDecimal (s : String) : Nat :=
  Nat.ofDigits 10 ((s.data.map (fun c => c.toNat - 48)).reverse)

/-- nextId from src/lib/protocol.ts: String(++_reqId). The process-wide
mutable counter is passed in and the incremented counter is returned. -/
def nextId (c : Nat) : String × Nat := (decimalString (c + 1), c + 1)

/-- The ids produced by a sequence of n successive nextId calls starting
from counter value c, together with the final counter. -/
def runNextIds : Nat → Nat → List String × Nat
  | c, 0 => ([], c)
  | c, n + 1 =>
    let (i, c1) := nextId c
    let (rest, c2) := runNextIds c1 n
    (i :: rest, c2)

/-- WsRequest from src/lib/protocol.ts. The TS field named type always
holds the string req for requests; params is a JSON object value. -/
structure WsRequest where
  type : String
  method : String
  id : String
  params : Jx

/-- JSON.stringify of a WsRequest: an object whose keys are the TS field
names in declaration order. -/
def serializeRequest (r : WsRequest) : Jx :=
  .obj [("type", .str r.type), ("method", .str r.method),
        ("id", .str r.id), ("params", r.params)]

/-- The params object built by makeConnectFrame. -/
def connectParams (token : String) : Jx :=
  .obj [("client", .obj [("mode", .str "webchat"), ("platform", .str "web"),
          ("version", .str "0.1.0"), ("id", .str "webchat"),
          ("displayName", .str "OpenClaw Voice")]),
        ("auth", .obj [("token", .str token)]),
        ("minProtocol", .num 3), ("maxProtocol", .num 3)]

/-- makeConnectFrame from src/lib/protocol.ts. -/
def makeConnectFrame (token : String) (c : Nat) : WsRequest × Nat :=
  let (i, c1) := nextId c
  ({ type := "req", method := "connect", id := i, params := connectParams token }, c1)

/-- makeChatSendFrame from src/lib/protocol.ts. Date.now() and the random
base36 suffix of the idempotency key are passed as parameters. -/
def makeChatSendFrame (message sessionKey : String) (now : Nat) (rand : String)
    (c : Nat) : WsRequest × Nat :=
  let (i, c1) := nextId c
  ({ type := "req", method := "chat.send", id := i,
     params := .obj [("message", .str message), ("sessionKey", .str sessionKey),
       ("idempotencyKey", .str (decimalString now ++ "-" ++ rand))] }, c1)

/-- makeSessionHistoryFrame as in src/lib (the storage.ts copy of the
protocol module). -/
def makeSessionHistoryFrame (sessionKey : String) (c : Nat) : WsRequest × Nat :=
  let (i, c1) := nextId c
  ({ type := "req", method := "session.history", id := i,
     params := .obj [("sessionKey", .str sessionKey)] }, c1)

/-- Modelled from the spec: makeSessionListFrame is imported and called by
src/hooks/useGateway.ts but its definition is not among the provided
source files; per the spec it builds a Request for session-catalog
retrieval with method session.list. -/
def makeSessionListFrame (c : Nat) : WsRequest × Nat :=
  let (i, c1) := nextId c
  ({ type := "req", method := "session.list", id := i, params := .obj [] }, c1)

/-- One entry of the content array of a chat event message. A missing or
empty text field is falsy in the JS filter. -/
structure ContentPart where
  type : String
  text : Option String
deriving DecidableEq

/-- The message carried by a chat event payload. -/
structure ChatMessage where
  role : String
  content : List ContentPart
  timestamp : Nat
deriving DecidableEq

/-- The filter-map-join over content parts shared by
extractTextFromMessage and the history response mapping. -/
def joinTextParts (content : List ContentPart) : String :=
  String.join (((content.filter
    (fun c => c.type == "text" && c.text.getD "" != "")).map
    (fun c => c.text.getD "")))

/-- extractTextFromMessage from src/lib/protocol.ts: concatenates every
content part whose type is text and whose text is truthy; empty string
when there is no message. -/
def extractTextFromMessage : Option ChatMessage → String
  | none => ""
  | some m => joinTextParts m.content

/-- ChatEventPayload from src/lib/protocol.ts. An empty runId models a
missing or falsy runId on the wire. -/
structure ChatEventPayload where
  runId : String
  sessionKey : String
  seq : Nat
  state : String
  message : Option ChatMessage
deriving DecidableEq

lemma digitToChar_inv : ∀ d < 10, (digitToChar d).toNat - 48 = d := by decide

lemma parseDecimal_decimalString (n : Nat) : parseDecimal (decimalString n) = n := by
  by_cases hn : n = 0
  · subst hn
    simp [parseDecimal, decimalString, Nat.ofDigits]
  · have hdata : (decimalString n).data = ((Nat.digits 10 n).map digitToChar).reverse := by
      rw [decimalString, if_neg hn]
    rw [parseDecimal, hdata, List.map_reverse, List.reverse_reverse, List.map_map]
    have hmap : (Nat.digits 10 n).map ((fun c => c.toNat - 48) ∘ digitToChar)
        = (Nat.digits 10 n).map id := by
      apply List.map_congr_left
      intro d hd
      exact digitToChar_inv d (Nat.digits_lt_base (by norm_num) hd)
    rw [hmap, List.map_id, Nat.ofDigits_digits]

lemma runNextIds_fst (c n : Nat) :
    (runNextIds c n).1 = (List.range n).map (fun k => decimalString (c + k + 1)) := by
  induction n generalizing c with
  | zero => simp [runNextIds]
  | succ m ih =>
    rw [List.range_succ_eq_map]
    simp only [runNextIds, nextId, List.map_cons, List.map_map]
    refine congrArg₂ List.cons (by simp) ?_
    rw [ih]
    apply List.map_congr_left
    intro k _
    simp only [Function.comp]
    congr 1
    omega

/-- GatewayStatus from src/hooks/useGateway.ts. -/
inductive GatewayStatus where
  | disconnected
  | connecting
  | connected
  | error
deriving DecidableEq

/-- Message from src/types.ts. -/
structure Message where
  role : String
  text : String
  timestamp : Nat
  agentId : Option String := none
  agentName : Option String := none
deriving DecidableEq

/-- SessionInfo from src/types.ts. -/
structure SessionInfo where
  sessionKey : String
  label : Option String
  lastMessage : Option String
  lastTimestamp : Option Nat
deriving DecidableEq

/-- WebSocket readyState values. -/
inductive WsReady where
  | CONNECTING
  | OPEN
  | CLOSING
  | CLOSED
deriving DecidableEq

/-- One WebSocket transport, identified by a process-unique socket id so
that closing a specific transport is observable. -/
structure Socket where
  sid : Nat
  ready : WsReady
deriving DecidableEq

/-- configRef from useGateway. -/
structure GatewayConfig where
  url : String
  token : String
  sessionKey : String
deriving DecidableEq

/-- One history response entry, as read from a session.history payload. -/
structure HistoryEntry where
  role : String
  content : List ContentPart
  timestamp : Option Nat
deriving DecidableEq

/-- One session.list response entry. -/
structure SessionEntry where
  sessionKey : String
  label : Option String
  lastMessage : Option String
  lastTimestamp : Option Nat
deriving DecidableEq

/-- The payload of an inbound response frame, as the handlers read it:
an optional messages array and an optional sessions array. -/
structure ResPayload where
  messages : Option (List HistoryEntry)
  sessions : Option (List SessionEntry)
deriving DecidableEq

/-- A successfully JSON-parsed inbound frame. The other constructor
models parsed JSON of any shape the handlers do not inspect. -/
inductive InFrame where
  | res (id : String) (ok : Bool) (payload : Option ResPayload) (errMsg : Option String)
  | event (name : String) (payload : ChatEventPayload)
  | other
deriving DecidableEq

/-- The full state of one connection session: the React state hooks, the
mutable refs, plus the explicit models of the ambient effects (request
counter, send log, completion-callback invocation log, socket ids). -/
structure GatewayState where
  status : GatewayStatus
  error : Option String
  messages : List Message
  streamingText : String
  isProcessing : Bool
  sessions : List SessionInfo
  ws : Option Socket
  config : GatewayConfig
  hasCallback : Bool
  connectId : Option String
  historyId : Option String
  sessionListId : Option String
  accumulatedText : String
  currentRunId : Option String
  closureSessionKey : String
  counter : Nat
  sent : List WsRequest
  completedCalls : List String
  socketCtr : Nat
  closedSockets : List Nat

/-- The initial session state. -/
def initialGateway : GatewayState where
  status := .disconnected
  error := none
  messages := []
  streamingText := ""
  isProcessing := false
  sessions := []
  ws := none
  config := { url := "", token := "", sessionKey := "main" }
  hasCallback := false
  connectId := none
  historyId := none
  sessionListId := none
  accumulatedText := ""
  currentRunId := none
  closureSessionKey := "main"
  counter := 0
  sent := []
  completedCalls := []
  socketCtr := 0
  closedSockets := []

/-- connect from useGateway: closes any existing transport, stores the
config, sets status connecting, clears the error, resets the message
list, and installs a fresh transport whose readyState is CONNECTING.
The sessionKey argument is also remembered as the value captured by the
onmessage closure. Note the accumulator and run id refs are not touched
here. -/
def GatewayState.connect (s : GatewayState) (url token sessionKey : String) :
    GatewayState :=
  let closed := match s.ws with
    | some sock => sock.sid :: s.closedSockets
    | none => s.closedSockets
  { s with
    config := { url := url, token := token, sessionKey := sessionKey }
    status := .connecting
    error := none
    messages := []
    ws := some { sid := s.socketCtr, ready := .CONNECTING }
    socketCtr := s.socketCtr + 1
    closureSessionKey := sessionKey
    closedSockets := closed }

/-- ws.onopen from useGateway connect: the transport becomes OPEN, a
connect frame is built with the captured token, its id is remembered in
connectIdRef, and the frame is sent. -/
def GatewayState.handleOpen (s : GatewayState) : GatewayState :=
  let (frame, c1) := makeConnectFrame s.config.token s.counter
  { s with
    ws := s.ws.map (fun sock => { sock with ready := .OPEN })
    connectId := some frame.id
    counter := c1
    sent := s.sent ++ [frame] }

/-- The completion text of a final chat event: the text extracted from
the payload message, or the accumulated buffer when that is empty
(JS finalText or-else accumulated). -/
def finalTextOf (s : GatewayState) (e : ChatEventPayload) : String :=
  if extractTextFromMessage e.message ≠ "" then extractTextFromMessage e.message
  else s.accumulatedText

/-- ws.onmessage from useGateway. The data argument is none when
JSON.parse of the raw message throws. Date.now() is the now argument. -/
def GatewayState.handleMessage (s : GatewayState) (data : Option InFrame)
    (now : Nat) : GatewayState :=
  match data with
  | none => s
  | some .other => s
  | some (.res id ok payload errMsg) =>
    if s.connectId = some id then
      if ok then
        let (histFrame, c1) := makeSessionHistoryFrame s.closureSessionKey s.counter
        let (listFrame, c2) := makeSessionListFrame c1
        { s with
          status := .connected
          historyId := some histFrame.id
          sessionListId := some listFrame.id
          counter := c2
          sent := s.sent ++ [histFrame, listFrame] }
      else
        { s with status := .error, error := some (errMsg.getD "Connection rejected") }
    else if s.sessionListId = some id then
      if ok then
        match payload with
        | some p =>
          match p.sessions with
          | some list =>
            { s with sessions := list.map (fun e =>
                { sessionKey := e.sessionKey, label := e.label,
                  lastMessage := e.lastMessage, lastTimestamp := e.lastTimestamp }) }
          | none => s
        | none => s
      else s
    else if s.historyId = some id then
      if ok then
        match payload with
        | some p =>
          match p.messages with
          | some list =>
            { s with messages :=
                (((list.filter (fun m => m.role == "user" || m.role == "assistant")).map
                  (fun m => ({ role := m.role, text := joinTextParts m.content,
                               timestamp := m.timestamp.getD now } : Message))).filter
                  (fun m => m.text != "")) }
          | none => s
        | none => s
      else s
    else s
  | some (.event name payload) =>
    if name = "chat" then
      if payload.state = "delta" then
        let s1 :=
          if payload.runId ≠ "" ∧ some payload.runId ≠ s.currentRunId then
            { s with currentRunId := some payload.runId, accumulatedText := "" }
          else s
        let text := extractTextFromMessage payload.message
        if text ≠ "" then
          { s1 with
            accumulatedText := s1.accumulatedText ++ text
            streamingText := s1.accumulatedText ++ text }
        else s1
      else if payload.state = "final" then
        let completeText := finalTextOf s payload
        let s1 := { s with isProcessing := false, streamingText := ""
                           accumulatedText := "", currentRunId := none }
        if completeText ≠ "" then
          { s1 with
            messages := s1.messages ++
              [{ role := "assistant", text := completeText, timestamp := now }]
            completedCalls :=
              if s1.hasCallback then s1.completedCalls ++ [completeText]
              else s1.completedCalls }
        else s1
      else if payload.state = "error" then
        { s with isProcessing := false, streamingText := ""
                 accumulatedText := "", error := some "Agent error" }
      else s
    else s

/-- ws.onerror from useGateway. -/
def GatewayState.handleError (s : GatewayState) : GatewayState :=
  { s with status := .error, error := some "WebSocket error" }

/-- ws.onclose from useGateway. -/
def GatewayState.handleClose (s : GatewayState) : GatewayState :=
  { s with status := .disconnected, ws := none }

/-- disconnect from useGateway. -/
def GatewayState.disconnect (s : GatewayState) : GatewayState :=
  let closed := match s.ws with
    | some sock => sock.sid :: s.closedSockets
    | none => s.closedSockets
  { s with ws := none, status := .disconnected, closedSockets := closed }

/-- sendMessage from useGateway: a no-op unless a transport is present
with readyState OPEN; otherwise appends the user message, sets the
processing flag, clears the streaming buffer and accumulator, and sends
a chat.send frame with the current config sessionKey. -/
def GatewayState.sendMessage (s : GatewayState) (text : String) (now : Nat)
    (rand : String) : GatewayState :=
  match s.ws with
  | none => s
  | some sock =>
    if sock.ready = .OPEN then
      let (frame, c1) := makeChatSendFrame text s.config.sessionKey now rand s.counter
      { s with
        messages := s.messages ++ [{ role := "user", text := text, timestamp := now }]
        isProcessing := true
        streamingText := ""
        accumulatedText := ""
        counter := c1
        sent := s.sent ++ [frame] }
    else s

/-- switchSession from useGateway. -/
def GatewayState.switchSession (s : GatewayState) (sessionKey : String) :
    GatewayState :=
  match s.ws with
  | none => s
  | some sock =>
    if sock.ready = .OPEN then
      let (histFrame, c1) := makeSessionHistoryFrame sessionKey s.counter
      { s with
        config := { s.config with sessionKey := sessionKey }
        messages := []
        streamingText := ""
        accumulatedText := ""
        historyId := some histFrame.id
        counter := c1
        sent := s.sent ++ [histFrame] }
    else s

/-- onResponseComplete from useGateway: registers the completion
callback. Invocations of the callback are recorded in completedCalls. -/
def GatewayState.onResponseComplete (s : GatewayState) : GatewayState :=
  { s with hasCallback := true }

/-- Profile from src/types.ts. -/
structure Profile where
  id : String
  name : String
  gatewayUrl : String
  authToken : String
  sessionKey : String
  voiceUri : String := ""
  elevenLabsVoiceId : Option String := none
  role : Option String := none
deriving DecidableEq

/-- AgentConnection from src/hooks/useMultiGateway.ts. -/
structure AgentConnection where
  ws : Option Socket
  status : GatewayStatus
  connectId : Option String
  accumulatedText : String
  currentRunId : Option String
  streamingText : String
  isProcessing : Bool
deriving DecidableEq

/-- JS object-spread key update: an existing key keeps its position and
gets the new value, a new key is appended. -/
def setKey {α : Type} (m : List (String × α)) (k : String) (v : α) :
    List (String × α) :=
  if m.any (fun p => p.1 == k) then
    m.map (fun p => if p.1 == k then (k, v) else p)
  else m ++ [(k, v)]

/-- JS delete of a key from an object copy. -/
def delKey {α : Type} (m : List (String × α)) (k : String) : List (String × α) :=
  m.filter (fun p => p.1 != k)

/-- JS Set add: insertion order preserved, no duplicates. -/
def addElem (s : List String) (x : String) : List String :=
  if x ∈ s then s else s ++ [x]

/-- JS Set delete. -/
def delElem (s : List String) (x : String) : List String :=
  s.filter (fun y => y != x)

/-- The full state of the multi-agent manager: the React state hooks,
the connectionsRef record map, and the explicit ambient effects. The
send log tags each sent frame with the agent id of its connection. -/
structure MultiState where
  messages : List Message
  agentStatuses : List (String × GatewayStatus)
  streamingByAgent : List (String × String)
  processingAgents : List String
  connections : List (String × AgentConnection)
  counter : Nat
  sent : List (String × WsRequest)
  socketCtr : Nat
  closedSockets : List Nat

/-- The initial manager state. -/
def initialMulti : MultiState where
  messages := []
  agentStatuses := []
  streamingByAgent := []
  processingAgents := []
  connections := []
  counter := 0
  sent := []
  socketCtr := 0
  closedSockets := []

/-- connectAgent from useMultiGateway: closes the transport of any prior
record for the same agent id, installs a fresh record with a fresh
CONNECTING transport, and marks the agent status connecting. -/
def MultiState.connectAgent (s : MultiState) (p : Profile) : MultiState :=
  let closed := match List.lookup p.id s.connections with
    | some conn => match conn.ws with
      | some sock => sock.sid :: s.closedSockets
      | none => s.closedSockets
    | none => s.closedSockets
  let conn : AgentConnection :=
    { ws := some { sid := s.socketCtr, ready := .CONNECTING }
      status := .connecting
      connectId := none
      accumulatedText := ""
      currentRunId := none
      streamingText := ""
      isProcessing := false }
  { s with
    connections := setKey s.connections p.id conn
    agentStatuses := setKey s.agentStatuses p.id .connecting
    socketCtr := s.socketCtr + 1
    closedSockets := closed }

/-- ws.onopen for an agent connection: the transport becomes OPEN, a
connect frame is built with the profile auth token, its id is remembered
on the record, and the frame is sent. -/
def MultiState.agentOpen (s : MultiState) (p : Profile) : MultiState :=
  match List.lookup p.id s.connections with
  | none => s
  | some conn =>
    let (frame, c1) := makeConnectFrame p.authToken s.counter
    { s with
      connections := setKey s.connections p.id
        { conn with
          ws := conn.ws.map (fun sock => { sock with ready := .OPEN })
          connectId := some frame.id }
      counter := c1
      sent := s.sent ++ [(p.id, frame)] }

/-- ws.onmessage for an agent connection, operating on the record held in
the map for that agent id. The data argument is none when JSON.parse of
the raw message throws. -/
def MultiState.agentMessage (s : MultiState) (p : Profile) (data : Option InFrame)
    (now : Nat) : MultiState :=
  match List.lookup p.id s.connections with
  | none => s
  | some conn =>
    match data with
    | none => s
    | some .other => s
    | some (.res id ok _ _) =>
      if conn.connectId = some id then
        if ok then
          { s with
            connections := setKey s.connections p.id { conn with status := .connected }
            agentStatuses := setKey s.agentStatuses p.id .connected }
        else
          { s with
            connections := setKey s.connections p.id { conn with status := .error }
            agentStatuses := setKey s.agentStatuses p.id .error }
      else s
    | some (.event name payload) =>
      if name = "chat" then
        if payload.state = "delta" then
          let conn1 :=
            if payload.runId ≠ "" ∧ some payload.runId ≠ conn.currentRunId then
              { conn with currentRunId := some payload.runId, accumulatedText := "" }
            else conn
          let text := extractTextFromMessage payload.message
          if text ≠ "" then
            { s with
              connections := setKey s.connections p.id
                { conn1 with
                  accumulatedText := conn1.accumulatedText ++ text
                  streamingText := conn1.accumulatedText ++ text }
              streamingByAgent :=
                setKey s.streamingByAgent p.id (conn1.accumulatedText ++ text) }
          else { s with connections := setKey s.connections p.id conn1 }
        else if payload.state = "final" then
          let finalText := extractTextFromMessage payload.message
          let completeText := if finalText ≠ "" then finalText else conn.accumulatedText
          let s1 :=
            { s with
              connections := setKey s.connections p.id
                { conn with isProcessing := false, streamingText := ""
                            accumulatedText := "", currentRunId := none }
              streamingByAgent := delKey s.streamingByAgent p.id
              processingAgents := delElem s.processingAgents p.id }
          if completeText ≠ "" then
            { s1 with
              messages := s1.messages ++
                [{ role := "assistant", text := completeText, timestamp := now,
                   agentId := some p.id, agentName := some p.name }] }
          else s1
        else if payload.state = "error" then
          { s with
            connections := setKey s.connections p.id
              { conn with isProcessing := false, streamingText := ""
                          accumulatedText := "" }
            streamingByAgent := delKey s.streamingByAgent p.id
            processingAgents := delElem s.processingAgents p.id }
        else s
      else s

/-- ws.onerror for an agent connection. -/
def MultiState.agentError (s : MultiState) (agentId : String) : MultiState :=
  let conns := match List.lookup agentId s.connections with
    | some conn => setKey s.connections agentId { conn with status := .error }
    | none => s.connections
  { s with connections := conns, agentStatuses := setKey s.agentStatuses agentId .error }

/-- ws.onclose for an agent connection. The closure mutates the record it
captured, which is observable through the map only while the map still
holds that record, identified by its socket id; the updateStatus call is
observable unconditionally — in particular it re-adds a disconnected
entry to the status map after disconnectAll evicted the record. -/
def MultiState.agentClose (s : MultiState) (agentId : String) (sid : Nat) :
    MultiState :=
  let conns := match List.lookup agentId s.connections with
    | some conn =>
      if conn.ws.any (fun sock => sock.sid == sid) then
        setKey s.connections agentId { conn with status := .disconnected, ws := none }
      else s.connections
    | none => s.connections
  { s with
    connections := conns
    agentStatuses := setKey s.agentStatuses agentId .disconnected }

/-- The socket ids of every transport held by the record map, collected
while closing them in disconnectAll. -/
def collectClosed : List (String × AgentConnection) → List Nat → List Nat
  | [], acc => acc
  | pc :: rest, acc =>
    match pc.2.ws with
    | some sock => collectClosed rest (sock.sid :: acc)
    | none => collectClosed rest acc

/-- disconnectAll from useMultiGateway: closes every open transport,
empties the record map, the per-agent status map, the per-agent
streaming map, and the processing-agent set. -/
def MultiState.disconnectAll (s : MultiState) : MultiState :=
  { s with
    connections := []
    agentStatuses := []
    streamingByAgent := []
    processingAgents := []
    closedSockets := collectClosed s.connections s.closedSockets }

/-- sendToAgent from useMultiGateway: a no-op unless the agent has a
record whose transport is OPEN; otherwise sets the processing flag,
clears the accumulator and streaming text, adds the agent to the
processing set, and sends a chat.send frame. -/
def MultiState.sendToAgent (s : MultiState) (agentId text sessionKey : String)
    (now : Nat) (rand : String) : MultiState :=
  match List.lookup agentId s.connections with
  | none => s
  | some conn =>
    match conn.ws with
    | none => s
    | some sock =>
      if sock.ready = .OPEN then
        let (frame, c1) := makeChatSendFrame text sessionKey now rand s.counter
        { s with
          connections := setKey s.connections agentId
            { conn with isProcessing := true, accumulatedText := "", streamingText := "" }
          processingAgents := addElem s.processingAgents agentId
          counter := c1
          sent := s.sent ++ [(agentId, frame)] }
      else s

/-- ASCII model of the JS toLowerCase used on mention tokens and profile
names. -/
def lowerChar (c : Char) : Char :=
  if c.toNat ≥ 65 ∧ c.toNat ≤ 90 then Char.ofNat (c.toNat + 32) else c

/-- String-level lowercase. -/
def jsToLowerCase (s : String) : String := String.mk (s.data.map lowerChar)

/-- The global regex scan for at-mentions, structurally recursive on a
fuel argument that starts at the length of the character list (each step
consumes at least one character, so the fuel never runs out): an at sign
followed by one or more non-whitespace characters yields one lowercased
token, and the scan resumes after the token. -/
def parseMentionsAux : Nat → List Char → List String
  | 0, _ => []
  | _, [] => []
  | fuel + 1, c :: rest =>
    if c = '@' then
      let run := rest.takeWhile (fun ch => !ch.isWhitespace)
      if run = [] then parseMentionsAux fuel rest
      else jsToLowerCase (String.mk run) :: parseMentionsAux fuel (rest.drop run.length)
    else parseMentionsAux fuel rest

/-- The mention tokens found in a character list. -/
def parseMentions (l : List Char) : List String := parseMentionsAux l.length l

/-- The mention tokens of an outgoing message text. -/
def mentionsOf (text : String) : List String := parseMentions text.data

/-- The normalized profile name: lowercased with all whitespace removed. -/
def normalizeName (name : String) : String :=
  String.mk ((jsToLowerCase name).data.filter (fun c => !c.isWhitespace))

/-- JS String.prototype.includes: substring containment. -/
def jsIncludes (hay needle : String) : Bool :=
  decide (needle.data <:+: hay.data)

/-- Whether a profile matches some mention token under the bidirectional
case-insensitive substring rule. -/
def profileMatches (mentions : List String) (p : Profile) : Bool :=
  mentions.any (fun m =>
    jsIncludes (normalizeName p.name) m || jsIncludes m (normalizeName p.name))

/-- The profiles a sendMessage text is routed to: the matching profiles
when at least one mention token is present, every supplied profile
otherwise. -/
def routedProfiles (text : String) (profiles : List Profile) : List Profile :=
  if mentionsOf text ≠ [] then profiles.filter (profileMatches (mentionsOf text))
  else profiles

/-- sendMessage from useMultiGateway: appends the untagged user message,
parses at-mentions, and either sends to each matching profile or
broadcasts to every profile. -/
def MultiState.sendMessage (s : MultiState) (text : String) (profiles : List Profile)
    (sessionKey : String) (now : Nat) (rand : String) : MultiState :=
  let s0 := { s with
    messages := s.messages ++ [{ role := "user", text := text, timestamp := now }] }
  let mentions := mentionsOf text
  if mentions ≠ [] then
    profiles.foldl (fun st p =>
      if profileMatches mentions p then st.sendToAgent p.id text sessionKey now rand
      else st) s0
  else
    profiles.foldl (fun st p => st.sendToAgent p.id text sessionKey now rand) s0

/-- clearMessages from useMultiGateway. -/
def MultiState.clearMessages (s : MultiState) : MultiState :=
  { s with messages := [], streamingByAgent := [], processingAgents := [] }

/-- Claim C4: the frame builders draw their ids from nextId on the shared
process-wide counter, and over any sequence of nextId calls the returned
id strings are pairwise distinct and strictly increasing when parsed as
integers. -/
theorem nextId_ids_strictly_increasing :
    (∀ token c, (makeConnectFrame token c).1.id = (nextId c).1 ∧
       (makeConnectFrame token c).2 = (nextId c).2) ∧
    (∀ msg sk now rand c, (makeChatSendFrame msg sk now rand c).1.id = (nextId c).1 ∧
       (makeChatSendFrame msg sk now rand c).2 = (nextId c).2) ∧
    (∀ sk c, (makeSessionHistoryFrame sk c).1.id = (nextId c).1 ∧
       (makeSessionHistoryFrame sk c).2 = (nextId c).2) ∧
    ∀ c n i j, i < j → j < n →
      ∃ si sj, ((runNextIds c n).1)[i]? = some si ∧ ((runNextIds c n).1)[j]? = some sj ∧
        parseDecimal si < parseDecimal sj ∧ si ≠ sj := by
  refine ⟨fun _ _ => ⟨rfl, rfl⟩, fun _ _ _ _ _ => ⟨rfl, rfl⟩, fun _ _ => ⟨rfl, rfl⟩, ?_⟩
  intro c n i j hij hjn
  have hin : i < n := lt_trans hij hjn
  refine ⟨decimalString (c + i + 1), decimalString (c + j + 1), ?_, ?_, ?_, ?_⟩
  · rw [runNextIds_fst]
    simp [List.getElem?_map, List.getElem?_range, hin]
  · rw [runNextIds_fst]
    simp [List.getElem?_map, List.getElem?_range, hjn]
  · rw [parseDecimal_decimalString, parseDecimal_decimalString]
    omega
  · intro h
    have h2 := congrArg parseDecimal h
    rw [parseDecimal_decimalString, parseDecimal_decimalString] at h2
    omega

/-- Witness for C4 at counter 0, three calls, indices 0 and 2. -/
theorem nextId_ids_strictly_increasing_witness :
    ∃ si sj, ((runNextIds 0 3).1)[0]? = some si ∧ ((runNextIds 0 3).1)[2]? = some sj ∧
      parseDecimal si < parseDecimal sj ∧ si ≠ sj :=
  nextId_ids_strictly_increasing.2.2.2 0 3 0 2 (by decide) (by decide)

/-- Claim C6 counterexample: the serialized connect frame has no field
named kind — the discriminator field of the wire format is named type —
so a frame does not match the claimed field set
kind, method, id, params. -/
theorem wire_kind_field_counterexample :
    (serializeRequest (makeConnectFrame "t" 0).1).lookup "kind" ≠ some (Jx.str "req") ∧
    (serializeRequest (makeConnectFrame "t" 0).1).lookup "kind" = none :=
  ⟨fun h => Option.noConfusion h, rfl⟩

/-- Claim C6 amended: every Request built by the frame builders
serializes to a JSON object whose required field set is type:"req",
method:string, id:string, params:object — the discriminator field is
named type, not kind — and makeConnectFrame carries method connect and
params client/auth/minProtocol 3/maxProtocol 3 exactly as claimed. -/
theorem wire_request_shape :
    (∀ token c,
      (serializeRequest (makeConnectFrame token c).1).lookup "type" = some (Jx.str "req") ∧
      (serializeRequest (makeConnectFrame token c).1).lookup "method" = some (Jx.str "connect") ∧
      (serializeRequest (makeConnectFrame token c).1).lookup "id" = some (Jx.str (nextId c).1) ∧
      (serializeRequest (makeConnectFrame token c).1).lookup "params" = some (connectParams token) ∧
      connectParams token =
        Jx.obj [("client", Jx.obj [("mode", Jx.str "webchat"), ("platform", Jx.str "web"),
                  ("version", Jx.str "0.1.0"), ("id", Jx.str "webchat"),
                  ("displayName", Jx.str "OpenClaw Voice")]),
                ("auth", Jx.obj [("token", Jx.str token)]),
                ("minProtocol", Jx.num 3), ("maxProtocol", Jx.num 3)]) ∧
    (∀ msg sk now rand c,
      (serializeRequest (makeChatSendFrame msg sk now rand c).1).lookup "type"
        = some (Jx.str "req") ∧
      (serializeRequest (makeChatSendFrame msg sk now rand c).1).lookup "method"
        = some (Jx.str "chat.send") ∧
      (serializeRequest (makeChatSendFrame msg sk now rand c).1).lookup "id"
        = some (Jx.str (nextId c).1) ∧
      (serializeRequest (makeChatSendFrame msg sk now rand c).1).lookup "params"
        = some (Jx.obj [("message", Jx.str msg), ("sessionKey", Jx.str sk),
            ("idempotencyKey", Jx.str (decimalString now ++ "-" ++ rand))])) ∧
    (∀ sk c,
      (serializeRequest (makeSessionHistoryFrame sk c).1).lookup "type"
        = some (Jx.str "req") ∧
      (serializeRequest (makeSessionHistoryFrame sk c).1).lookup "method"
        = some (Jx.str "session.history") ∧
      (serializeRequest (makeSessionHistoryFrame sk c).1).lookup "id"
        = some (Jx.str (nextId c).1) ∧
      (serializeRequest (makeSessionHistoryFrame sk c).1).lookup "params"
        = some (Jx.obj [("sessionKey", Jx.str sk)])) ∧
    (∀ c,
      (serializeRequest (makeSessionListFrame c).1).lookup "type" = some (Jx.str "req") ∧
      (serializeRequest (makeSessionListFrame c).1).lookup "method"
        = some (Jx.str "session.list") ∧
      (serializeRequest (makeSessionListFrame c).1).lookup "id"
        = some (Jx.str (nextId c).1) ∧
      (serializeRequest (makeSessionListFrame c).1).lookup "params"
        = some (Jx.obj [])) :=
  ⟨fun _ _ => ⟨rfl, rfl, rfl, rfl, rfl⟩,
   fun _ _ _ _ _ => ⟨rfl, rfl, rfl, rfl⟩,
   fun _ _ => ⟨rfl, rfl, rfl, rfl⟩,
   fun _ => ⟨rfl, rfl, rfl, rfl⟩⟩

/-- A delta chat event carrying one text content part. -/
def mkDelta (runId text : String) : ChatEventPayload where
  runId := runId
  sessionKey := "main"
  seq := 0
  state := "delta"
  message := some { role := "assistant",
                    content := [{ type := "text", text := some text }],
                    timestamp := 0 }

/-- A delta chat event with no message at all. -/
def mkDeltaNoMsg (runId : String) : ChatEventPayload where
  runId := runId
  sessionKey := "main"
  seq := 0
  state := "delta"
  message := none

/-- A session mid-run: run r1 active with accumulated and published
text abc. -/
def runningSession : GatewayState :=
  { initialGateway with
    currentRunId := some "r1", accumulatedText := "abc", streamingText := "abc" }

/-- How the session handler processes one delta event, split by whether
the runId is truthy and new, and whether the extracted text is empty. -/
lemma handleMessage_delta (s : GatewayState) (e : ChatEventPayload) (now : Nat)
    (hst : e.state = "delta") :
    (e.runId ≠ "" ∧ some e.runId ≠ s.currentRunId →
       (s.handleMessage (some (.event "chat" e)) now).currentRunId = some e.runId ∧
       (s.handleMessage (some (.event "chat" e)) now).accumulatedText
         = extractTextFromMessage e.message) ∧
    (¬ (e.runId ≠ "" ∧ some e.runId ≠ s.currentRunId) →
       (s.handleMessage (some (.event "chat" e)) now).currentRunId = s.currentRunId ∧
       (s.handleMessage (some (.event "chat" e)) now).accumulatedText
         = s.accumulatedText ++ extractTextFromMessage e.message) ∧
    (extractTextFromMessage e.message ≠ "" →
       (s.handleMessage (some (.event "chat" e)) now).streamingText
         = (s.handleMessage (some (.event "chat" e)) now).accumulatedText) ∧
    (extractTextFromMessage e.message = "" →
       (s.handleMessage (some (.event "chat" e)) now).streamingText
         = s.streamingText) := by
  unfold GatewayState.handleMessage
  by_cases hr : e.runId ≠ "" ∧ some e.runId ≠ s.currentRunId <;>
    by_cases ht : extractTextFromMessage e.message = "" <;>
      simp [hst, hr, ht]

/-- Claim C1 counterexample: a delta whose runId is the empty string
(falsy in JS) and differs from the current run id r1 does not reset the
accumulator — the prior text abc is concatenated with the new text x —
and a delta with a fresh runId but empty extracted text resets the
accumulator without republishing the streaming view, leaving the
published view abc different from the accumulator. -/
theorem delta_reset_counterexample :
    ((runningSession.handleMessage (some (.event "chat" (mkDelta "" "x"))) 0).accumulatedText
       = "abcx" ∧
     (runningSession.handleMessage (some (.event "chat" (mkDelta "" "x"))) 0).accumulatedText
       ≠ "x") ∧
    ((runningSession.handleMessage (some (.event "chat" (mkDeltaNoMsg "r2"))) 0).accumulatedText
       = "" ∧
     (runningSession.handleMessage (some (.event "chat" (mkDeltaNoMsg "r2"))) 0).streamingText
       = "abc") := by
  decide

/-- Claim C1 amended: a delta appends the extracted text to the run
accumulator and, when the extracted text is non-empty, publishes the
updated accumulator as the streaming view (an empty extracted text leaves
the view untouched); a delta whose runId is non-empty and differs from
the current run id first resets the accumulator and adopts the new run
id, while a delta with an empty (falsy) runId never resets. After deltas
Hel then lo for runId r1 on a session not already tracking r1, the
published streaming text is Hello. -/
theorem delta_accumulate_amended :
    (∀ (s : GatewayState) (e : ChatEventPayload) (now : Nat),
      e.state = "delta" →
      ((e.runId ≠ "" ∧ some e.runId ≠ s.currentRunId →
         (s.handleMessage (some (.event "chat" e)) now).currentRunId = some e.runId ∧
         (s.handleMessage (some (.event "chat" e)) now).accumulatedText
           = extractTextFromMessage e.message) ∧
       (¬ (e.runId ≠ "" ∧ some e.runId ≠ s.currentRunId) →
         (s.handleMessage (some (.event "chat" e)) now).accumulatedText
           = s.accumulatedText ++ extractTextFromMessage e.message) ∧
       (extractTextFromMessage e.message ≠ "" →
         (s.handleMessage (some (.event "chat" e)) now).streamingText
           = (s.handleMessage (some (.event "chat" e)) now).accumulatedText) ∧
       (extractTextFromMessage e.message = "" →
         (s.handleMessage (some (.event "chat" e)) now).streamingText
           = s.streamingText))) ∧
    (∀ (s : GatewayState) (n1 n2 : Nat), s.currentRunId ≠ some "r1" →
      ((s.handleMessage (some (.event "chat" (mkDelta "r1" "Hel"))) n1).handleMessage
        (some (.event "chat" (mkDelta "r1" "lo"))) n2).streamingText = "Hello") := by
  constructor
  · intro s e now hst
    obtain ⟨h1, h2, h3, h4⟩ := handleMessage_delta s e now hst
    exact ⟨h1, fun hc => (h2 hc).2, h3, h4⟩
  · intro s n1 n2 h
    obtain ⟨h1, _, h3, _⟩ := handleMessage_delta s (mkDelta "r1" "Hel") n1 rfl
    have hcond1 : (mkDelta "r1" "Hel").runId ≠ ""
        ∧ some (mkDelta "r1" "Hel").runId ≠ s.currentRunId := by
      refine ⟨by decide, ?_⟩
      intro hh
      exact h hh.symm
    obtain ⟨hrun1, hacc1⟩ := h1 hcond1
    obtain ⟨_, h2b, h3b, _⟩ := handleMessage_delta
      (s.handleMessage (some (.event "chat" (mkDelta "r1" "Hel"))) n1)
      (mkDelta "r1" "lo") n2 rfl
    have hcond2 : ¬ ((mkDelta "r1" "lo").runId ≠ "" ∧ some (mkDelta "r1" "lo").runId
        ≠ (s.handleMessage (some (.event "chat" (mkDelta "r1" "Hel"))) n1).currentRunId) := by
      rw [hrun1]
      simp [mkDelta]
    obtain ⟨_, hacc2⟩ := h2b hcond2
    have hpub := h3b (by decide)
    rw [hpub, hacc2, hacc1]
    decide

/-- Witness for the amended C1 at a fresh session: the first delta adopts
run r1 and accumulates Hel, and after the second delta the published
streaming text is Hello. -/
theorem delta_accumulate_amended_witness :
    ((initialGateway.handleMessage (some (.event "chat" (mkDelta "r1" "Hel"))) 0).currentRunId
       = some (mkDelta "r1" "Hel").runId ∧
     (initialGateway.handleMessage (some (.event "chat" (mkDelta "r1" "Hel"))) 0).accumulatedText
       = extractTextFromMessage (mkDelta "r1" "Hel").message) ∧
    ((initialGateway.handleMessage (some (.event "chat" (mkDelta "r1" "Hel"))) 0).handleMessage
       (some (.event "chat" (mkDelta "r1" "lo"))) 1).streamingText = "Hello" :=
  ⟨(delta_accumulate_amended.1 initialGateway (mkDelta "r1" "Hel") 0 rfl).1 (by decide),
   delta_accumulate_amended.2 initialGateway 0 1 (by decide)⟩

/-- Claim C2: on a final chat event the final text is the text extracted
from the payload message, falling back to the accumulator when that is
empty; the processing flag, streaming view, accumulator and run id are
all cleared; exactly when the final text is non-empty an assistant
Message with that text is appended and the registered completion callback
is invoked with it; and an error event never invokes the callback. -/
theorem final_flush_behavior :
    (∀ (s : GatewayState) (e : ChatEventPayload) (now : Nat),
      e.state = "final" →
      finalTextOf s e = (if extractTextFromMessage e.message ≠ ""
        then extractTextFromMessage e.message else s.accumulatedText) ∧
      (s.handleMessage (some (.event "chat" e)) now).isProcessing = false ∧
      (s.handleMessage (some (.event "chat" e)) now).streamingText = "" ∧
      (s.handleMessage (some (.event "chat" e)) now).accumulatedText = "" ∧
      (s.handleMessage (some (.event "chat" e)) now).currentRunId = none ∧
      (finalTextOf s e ≠ "" →
        (s.handleMessage (some (.event "chat" e)) now).messages
          = s.messages ++ [{ role := "assistant", text := finalTextOf s e, timestamp := now }]) ∧
      (finalTextOf s e = "" →
        (s.handleMessage (some (.event "chat" e)) now).messages = s.messages) ∧
      (s.hasCallback = true →
        (finalTextOf s e ≠ "" →
          (s.handleMessage (some (.event "chat" e)) now).completedCalls
            = s.completedCalls ++ [finalTextOf s e]) ∧
        (finalTextOf s e = "" →
          (s.handleMessage (some (.event "chat" e)) now).completedCalls
            = s.completedCalls))) ∧
    (∀ (s : GatewayState) (e : ChatEventPayload) (now : Nat),
      e.state = "error" →
      (s.handleMessage (some (.event "chat" e)) now).completedCalls = s.completedCalls) := by
  constructor
  · intro s e now hst
    unfold GatewayState.handleMessage
    by_cases hf : finalTextOf s e = "" <;>
      by_cases hcb : s.hasCallback = true <;>
        simp_all [finalTextOf, hst]
  · intro s e now hst
    unfold GatewayState.handleMessage
    have hne : e.state ≠ "delta" := by rw [hst]; decide
    have hne2 : e.state ≠ "final" := by rw [hst]; decide
    simp [hst]

/-- A session holding accumulated text Hello for run r1, with the
completion callback registered. -/
def flushedSession : GatewayState :=
  { initialGateway with
    accumulatedText := "Hello", streamingText := "Hello",
    isProcessing := true, hasCallback := true, currentRunId := some "r1" }

/-- A final chat event whose payload carries no message. -/
def finalNoMsg : ChatEventPayload where
  runId := "r1"
  sessionKey := "main"
  seq := 2
  state := "final"
  message := none

/-- Witness for C2: a final event with no message flushes the
accumulated Hello as an assistant Message, invokes the callback with it,
and clears the processing flag, streaming view, accumulator and run
id. -/
theorem final_flush_behavior_witness :
    (flushedSession.handleMessage (some (.event "chat" finalNoMsg)) 7).isProcessing = false ∧
    (flushedSession.handleMessage (some (.event "chat" finalNoMsg)) 7).streamingText = "" ∧
    (flushedSession.handleMessage (some (.event "chat" finalNoMsg)) 7).accumulatedText = "" ∧
    (flushedSession.handleMessage (some (.event "chat" finalNoMsg)) 7).currentRunId = none ∧
    (flushedSession.handleMessage (some (.event "chat" finalNoMsg)) 7).messages
      = [{ role := "assistant", text := "Hello", timestamp := 7 }] ∧
    (flushedSession.handleMessage (some (.event "chat" finalNoMsg)) 7).completedCalls
      = ["Hello"] := by
  obtain ⟨-, hp, hs, ha, hr, hm, -, hcb⟩ :=
    final_flush_behavior.1 flushedSession finalNoMsg 7 rfl
  have hft : finalTextOf flushedSession finalNoMsg = "Hello" := by decide
  refine ⟨hp, hs, ha, hr, ?_, ?_⟩
  · rw [hm (by rw [hft]; decide), hft]
    decide
  · rw [(hcb rfl).1 (by rw [hft]; decide), hft]
    decide

/-- The session right after connect and transport open, before any
handshake response: the transport is OPEN while the status is still
connecting. -/
def preHandshake : GatewayState :=
  (initialGateway.connect "wss://x" "tok" "main").handleOpen

/-- Claim C3 counterexample: sendMessage is guarded by the transport
readyState, not by the Connected status — in the reachable state after
connect and transport open but before the handshake response, the status
is connecting yet sendMessage appends the user message, flips the
processing flag and sends a chat.send frame. -/
theorem sendMessage_guard_counterexample :
    preHandshake.status = GatewayStatus.connecting ∧
    preHandshake.status ≠ GatewayStatus.connected ∧
    (preHandshake.sendMessage "hi" 5 "rr").messages
      = [{ role := "user", text := "hi", timestamp := 5 }] ∧
    (preHandshake.sendMessage "hi" 5 "rr").sent.map WsRequest.method
      = ["connect", "chat.send"] ∧
    (preHandshake.sendMessage "hi" 5 "rr").isProcessing = true := by
  refine ⟨rfl, by decide, rfl, rfl, rfl⟩

/-- Claim C3 amended: sendMessage is a no-op unless the session holds a
transport whose readyState is OPEN (which can be the case while the
status is still connecting); when it proceeds it synchronously appends a
user Message with the given text, sets the processing flag, clears the
streaming buffer and accumulator, and sends a chat.send Request whose
params message is the text and whose params sessionKey is the current
config session key. -/
theorem sendMessage_amended :
    ∀ (s : GatewayState) (text : String) (now : Nat) (rand : String),
      (s.ws = none → s.sendMessage text now rand = s) ∧
      (∀ sock, s.ws = some sock → sock.ready ≠ WsReady.OPEN →
        s.sendMessage text now rand = s) ∧
      (∀ sock, s.ws = some sock → sock.ready = WsReady.OPEN →
        (s.sendMessage text now rand).messages
          = s.messages ++ [{ role := "user", text := text, timestamp := now }] ∧
        (s.sendMessage text now rand).isProcessing = true ∧
        (s.sendMessage text now rand).streamingText = "" ∧
        (s.sendMessage text now rand).accumulatedText = "" ∧
        (s.sendMessage text now rand).sent
          = s.sent ++ [(makeChatSendFrame text s.config.sessionKey now rand s.counter).1] ∧
        (makeChatSendFrame text s.config.sessionKey now rand s.counter).1.method
          = "chat.send" ∧
        (makeChatSendFrame text s.config.sessionKey now rand s.counter).1.params.lookup
          "message" = some (Jx.str text) ∧
        (makeChatSendFrame text s.config.sessionKey now rand s.counter).1.params.lookup
          "sessionKey" = some (Jx.str s.config.sessionKey)) := by
  intro s text now rand
  refine ⟨?_, ?_, ?_⟩
  · intro h
    unfold GatewayState.sendMessage
    rw [h]
  · intro sock h hready
    unfold GatewayState.sendMessage
    rw [h]
    simp [hready]
  · intro sock h hready
    unfold GatewayState.sendMessage
    rw [h]
    simp only [hready]
    refine ⟨rfl, rfl, rfl, rfl, rfl, rfl, rfl, rfl⟩

/-- Witness for the amended C3 in the post-open pre-handshake state with
session key main. -/
theorem sendMessage_amended_witness :
    (preHandshake.sendMessage "hello" 5 "rr").messages
      = preHandshake.messages ++ [{ role := "user", text := "hello", timestamp := 5 }] ∧
    (preHandshake.sendMessage "hello" 5 "rr").isProcessing = true ∧
    (makeChatSendFrame "hello" preHandshake.config.sessionKey 5 "rr"
      preHandshake.counter).1.params.lookup "sessionKey" = some (Jx.str "main") := by
  obtain ⟨hm, hp, -, -, -, -, -, hsk⟩ :=
    (sendMessage_amended preHandshake "hello" 5 "rr").2.2
      { sid := 0, ready := WsReady.OPEN } (by decide) rfl
  refine ⟨hm, hp, ?_⟩
  have hk : preHandshake.config.sessionKey = "main" := rfl
  rw [hsk, hk]

/-- A connected session whose previous run left stale accumulator text
abc under run id r1. -/
def staleAccSession : GatewayState :=
  { initialGateway with
    accumulatedText := "abc", currentRunId := some "r1",
    status := .connected, ws := some { sid := 7, ready := .OPEN }, socketCtr := 8 }

/-- Claim C7 counterexample: connect does not clear the prior run
accumulator or run id — after reconnecting, the stale accumulated text
abc and run id r1 are still present. -/
theorem connect_clears_accumulator_counterexample :
    (staleAccSession.connect "wss://y" "tok2" "k2").accumulatedText = "abc" ∧
    (staleAccSession.connect "wss://y" "tok2" "k2").accumulatedText ≠ "" ∧
    (staleAccSession.connect "wss://y" "tok2" "k2").currentRunId = some "r1" := by
  decide

/-- Claim C7 amended: connect closes any existing transport, resets the
message list, sets status connecting, clears the stored error, and opens
a fresh CONNECTING transport which on open sends a connect Request whose
id is remembered for handshake matching; the prior run accumulator and
run id are left untouched by connect itself. -/
theorem connect_amended :
    ∀ (s : GatewayState) (url token sessionKey : String),
      (∀ sock, s.ws = some sock →
        sock.sid ∈ (s.connect url token sessionKey).closedSockets) ∧
      (s.connect url token sessionKey).messages = [] ∧
      (s.connect url token sessionKey).status = GatewayStatus.connecting ∧
      (s.connect url token sessionKey).error = none ∧
      (s.connect url token sessionKey).ws
        = some { sid := s.socketCtr, ready := WsReady.CONNECTING } ∧
      (s.connect url token sessionKey).accumulatedText = s.accumulatedText ∧
      (s.connect url token sessionKey).currentRunId = s.currentRunId ∧
      ((s.connect url token sessionKey).handleOpen).connectId
        = some (makeConnectFrame token (s.connect url token sessionKey).counter).1.id ∧
      ((s.connect url token sessionKey).handleOpen).sent
        = (s.connect url token sessionKey).sent
          ++ [(makeConnectFrame token (s.connect url token sessionKey).counter).1] ∧
      (makeConnectFrame token (s.connect url token sessionKey).counter).1.method
        = "connect" := by
  intro s url token sessionKey
  refine ⟨?_, rfl, rfl, rfl, rfl, rfl, rfl, rfl, rfl, rfl⟩
  intro sock h
  unfold GatewayState.connect
  rw [h]
  exact List.mem_cons_self _ _

/-- Witness for the amended C7 on a session with an open transport and
stale accumulator state. -/
theorem connect_amended_witness :
    (7 ∈ (staleAccSession.connect "wss://y" "tok2" "k2").closedSockets) ∧
    (staleAccSession.connect "wss://y" "tok2" "k2").messages = [] ∧
    (staleAccSession.connect "wss://y" "tok2" "k2").status = GatewayStatus.connecting ∧
    ((staleAccSession.connect "wss://y" "tok2" "k2").handleOpen).connectId
      = some (makeConnectFrame "tok2"
          (staleAccSession.connect "wss://y" "tok2" "k2").counter).1.id := by
  obtain ⟨hc, hm, hs, -, -, -, -, hid, -, -⟩ :=
    connect_amended staleAccSession "wss://y" "tok2" "k2"
  exact ⟨hc { sid := 7, ready := .OPEN } rfl, hm, hs, hid⟩

lemma foldl_if_filter {α β : Type} (f : α → Bool) (g : β → α → β) :
    ∀ (l : List α) (b : β),
      l.foldl (fun st p => if f p then g st p else st) b = (l.filter f).foldl g b := by
  intro l
  induction l with
  | nil => intro b; rfl
  | cons a l ih =>
    intro b
    by_cases h : f a <;> simp [List.filter_cons, h, ih]

lemma foldl_no_match {α β : Type} (f : α → Bool) (g : β → α → β) (l : List α) (b : β)
    (h : ∀ p ∈ l, f p = false) :
    l.foldl (fun st p => if f p then g st p else st) b = b := by
  rw [foldl_if_filter]
  have hf : l.filter f = [] := by
    rw [List.filter_eq_nil_iff]
    intro p hp
    simp [h p hp]
  rw [hf]
  rfl

lemma collectClosed_mem_acc (sid : Nat) :
    ∀ (l : List (String × AgentConnection)) (acc : List Nat),
      sid ∈ acc → sid ∈ collectClosed l acc := by
  intro l
  induction l with
  | nil => intro acc h; exact h
  | cons pc rest ih =>
    intro acc h
    cases hw : pc.2.ws with
    | none =>
      rw [collectClosed, hw]
      exact ih acc h
    | some sock =>
      rw [collectClosed, hw]
      exact ih _ (List.mem_cons_of_mem _ h)

lemma collectClosed_mem (aid : String) (conn : AgentConnection) (sock : Socket)
    (hws : conn.ws = some sock) :
    ∀ (l : List (String × AgentConnection)) (acc : List Nat),
      (aid, conn) ∈ l → sock.sid ∈ collectClosed l acc := by
  intro l
  induction l with
  | nil => intro acc h; cases h
  | cons pc rest ih =>
    intro acc h
    rcases List.mem_cons.mp h with heq | htail
    · rw [collectClosed, ← heq, hws]
      exact collectClosed_mem_acc sock.sid rest _ (List.mem_cons_self _ _)
    · cases hw : pc.2.ws with
      | none =>
        rw [collectClosed, hw]
        exact ih acc htail
      | some sock2 =>
        rw [collectClosed, hw]
        exact ih _ htail

/-- Profile a1 Alice. -/
def alice : Profile where
  id := "a1"
  name := "Alice"
  gatewayUrl := "wss://a"
  authToken := "ta"
  sessionKey := "main"

/-- Profile b1 Bob. -/
def bob : Profile where
  id := "b1"
  name := "Bob"
  gatewayUrl := "wss://b"
  authToken := "tb"
  sessionKey := "main"

/-- A connected agent record with an OPEN transport on the given socket
id. -/
def openConn (sid : Nat) : AgentConnection where
  ws := some { sid := sid, ready := .OPEN }
  status := .connected
  connectId := some "1"
  accumulatedText := ""
  currentRunId := none
  streamingText := ""
  isProcessing := false

/-- A manager with both Alice and Bob connected with OPEN transports. -/
def roomState : MultiState :=
  { initialMulti with
    connections := [("a1", openConn 0), ("b1", openConn 1)]
    agentStatuses := [("a1", .connected), ("b1", .connected)]
    socketCtr := 2 }

/-- Claim C5: manager sendMessage routes to exactly the matching
profiles. When at least one mention token is present, the send folds
over precisely the profiles whose normalized name matches some token
under the bidirectional case-insensitive substring rule; with zero
mentions it folds over every supplied profile. Concretely, with Alice
a1 and Bob b1 connected, at-Bob status? is delivered only to b1, and
status for everyone is delivered to both. -/
theorem mention_routing :
    (∀ (s : MultiState) (text : String) (profiles : List Profile)
       (sessionKey : String) (now : Nat) (rand : String),
      s.sendMessage text profiles sessionKey now rand
        = (routedProfiles text profiles).foldl
            (fun st p => st.sendToAgent p.id text sessionKey now rand)
            { s with messages := s.messages
                ++ [{ role := "user", text := text, timestamp := now }] }) ∧
    (∀ text profiles p, mentionsOf text ≠ [] →
      (p ∈ routedProfiles text profiles
        ↔ p ∈ profiles ∧ profileMatches (mentionsOf text) p = true)) ∧
    (∀ text profiles, mentionsOf text = [] → routedProfiles text profiles = profiles) ∧
    (∀ (ms : List String) (p : Profile),
      profileMatches ms p = true
        ↔ ∃ m ∈ ms, (m.data <:+: (normalizeName p.name).data
            ∨ (normalizeName p.name).data <:+: m.data)) ∧
    ((roomState.sendMessage "@Bob status?" [alice, bob] "main" 9 "rr").sent.map
      Prod.fst = ["b1"] ∧
     (roomState.sendMessage "@Bob status?" [alice, bob] "main" 9 "rr").processingAgents
      = ["b1"] ∧
     (roomState.sendMessage "status for everyone" [alice, bob] "main" 9 "rr").sent.map
      Prod.fst = ["a1", "b1"] ∧
     (roomState.sendMessage "status for everyone" [alice, bob] "main" 9 "rr").processingAgents
      = ["a1", "b1"]) := by
  refine ⟨?_, ?_, ?_, ?_, by decide, by decide, by decide, by decide⟩
  · intro s text profiles sessionKey now rand
    unfold MultiState.sendMessage routedProfiles
    by_cases hm : mentionsOf text = []
    · simp [hm]
    · simp only [hm, if_pos, ne_eq, not_false_iff, if_true]
      rw [foldl_if_filter]
  · intro text profiles p hm
    unfold routedProfiles
    rw [if_pos hm]
    simp [List.mem_filter]
  · intro text profiles hm
    unfold routedProfiles
    simp [hm]
  · intro ms p
    unfold profileMatches jsIncludes
    rw [List.any_eq_true]
    constructor
    · rintro ⟨m, hmem, hor⟩
      rcases Bool.or_eq_true_iff.mp hor with h1 | h1
      · exact ⟨m, hmem, Or.inl (of_decide_eq_true h1)⟩
      · exact ⟨m, hmem, Or.inr (of_decide_eq_true h1)⟩
    · rintro ⟨m, hmem, h1 | h1⟩
      · exact ⟨m, hmem, Bool.or_eq_true_iff.mpr (Or.inl (decide_eq_true h1))⟩
      · exact ⟨m, hmem, Bool.or_eq_true_iff.mpr (Or.inr (decide_eq_true h1))⟩

/-- Witness for C5: instantiating the membership characterization at the
at-Bob example. -/
theorem mention_routing_witness :
    bob ∈ routedProfiles "@Bob status?" [alice, bob]
      ↔ bob ∈ [alice, bob] ∧ profileMatches (mentionsOf "@Bob status?") bob = true :=
  mention_routing.2.1 "@Bob status?" [alice, bob] bob (by decide)

/-- A manager with one connected agent a1 that is processing and
streaming partial text. -/
def connectedRoom : MultiState :=
  { initialMulti with
    connections := [("a1", openConn 0)]
    agentStatuses := [("a1", .connected)]
    streamingByAgent := [("a1", "par")]
    processingAgents := ["a1"]
    socketCtr := 1 }

/-- Claim C9 counterexample: disconnectAll itself leaves the status map
empty, but the transport close callback it triggers re-adds a
disconnected entry for the closed agent, so after the callbacks the
status map is not empty as claimed. -/
theorem disconnectAll_status_counterexample :
    (connectedRoom.disconnectAll).agentStatuses = [] ∧
    ((connectedRoom.disconnectAll).agentClose "a1" 0).agentStatuses
      = [("a1", GatewayStatus.disconnected)] ∧
    ((connectedRoom.disconnectAll).agentClose "a1" 0).agentStatuses ≠ [] := by
  decide

/-- Claim C9 amended: when disconnectAll completes, every transport held
by the record map has been closed and the record map, status map,
streaming map and processing set are all empty; a transport close
callback firing afterwards re-adds a disconnected status entry for its
agent, while the record map, streaming map and processing set stay
empty. -/
theorem disconnectAll_amended :
    ∀ (s : MultiState),
      (s.disconnectAll).connections = [] ∧
      (s.disconnectAll).agentStatuses = [] ∧
      (s.disconnectAll).streamingByAgent = [] ∧
      (s.disconnectAll).processingAgents = [] ∧
      (∀ aid conn sock, (aid, conn) ∈ s.connections → conn.ws = some sock →
        sock.sid ∈ (s.disconnectAll).closedSockets) ∧
      (∀ aid sid,
        ((s.disconnectAll).agentClose aid sid).connections = [] ∧
        ((s.disconnectAll).agentClose aid sid).streamingByAgent = [] ∧
        ((s.disconnectAll).agentClose aid sid).processingAgents = [] ∧
        ((s.disconnectAll).agentClose aid sid).agentStatuses
          = [(aid, GatewayStatus.disconnected)]) := by
  intro s
  refine ⟨rfl, rfl, rfl, rfl, ?_, ?_⟩
  · intro aid conn sock hmem hws
    exact collectClosed_mem aid conn sock hws s.connections s.closedSockets hmem
  · intro aid sid
    exact ⟨rfl, rfl, rfl, rfl⟩

/-- Witness for the amended C9 on a manager with one open agent. -/
theorem disconnectAll_amended_witness :
    (connectedRoom.disconnectAll).connections = [] ∧
    (connectedRoom.disconnectAll).agentStatuses = [] ∧
    (connectedRoom.disconnectAll).streamingByAgent = [] ∧
    (connectedRoom.disconnectAll).processingAgents = [] ∧
    0 ∈ (connectedRoom.disconnectAll).closedSockets ∧
    ((connectedRoom.disconnectAll).agentClose "a1" 0).agentStatuses
      = [("a1", GatewayStatus.disconnected)] := by
  obtain ⟨h1, h2, h3, h4, h5, h6⟩ := disconnectAll_amended connectedRoom
  exact ⟨h1, h2, h3, h4,
    h5 "a1" (openConn 0) { sid := 0, ready := .OPEN } (by decide) rfl,
    (h6 "a1" 0).2.2.2⟩

/-- Claim C10: a mentioned send that matches no supplied profile is
delivered to zero agents — the untagged user Message is still appended
to the shared list, but the resulting state is otherwise unchanged: no
chat.send is sent, no processing flag is set, and no record, streaming
entry or status entry is touched. -/
theorem unmatched_mentions_no_delivery :
    ∀ (s : MultiState) (text : String) (profiles : List Profile)
      (sessionKey : String) (now : Nat) (rand : String),
      mentionsOf text ≠ [] →
      (∀ p ∈ profiles, profileMatches (mentionsOf text) p = false) →
      s.sendMessage text profiles sessionKey now rand
        = { s with messages := s.messages
            ++ [{ role := "user", text := text, timestamp := now }] } ∧
      (s.sendMessage text profiles sessionKey now rand).sent = s.sent ∧
      (s.sendMessage text profiles sessionKey now rand).processingAgents
        = s.processingAgents ∧
      (s.sendMessage text profiles sessionKey now rand).connections = s.connections ∧
      (s.sendMessage text profiles sessionKey now rand).streamingByAgent
        = s.streamingByAgent ∧
      (s.sendMessage text profiles sessionKey now rand).messages
        = s.messages ++ [{ role := "user", text := text, timestamp := now }] := by
  intro s text profiles sessionKey now rand hm hnone
  have hmain : s.sendMessage text profiles sessionKey now rand
      = { s with messages := s.messages
          ++ [{ role := "user", text := text, timestamp := now }] } := by
    unfold MultiState.sendMessage
    simp only [hm, ne_eq, not_false_iff, if_true]
    exact foldl_no_match _ _ profiles _ hnone
  rw [hmain]
  exact ⟨rfl, rfl, rfl, rfl, rfl, rfl⟩

/-- Witness for C10: an at-zzz mention matches neither Alice nor Bob, so
the room state only gains the user message. -/
theorem unmatched_mentions_no_delivery_witness :
    roomState.sendMessage "@zzz hi" [alice, bob] "main" 4 "rr"
      = { roomState with messages := roomState.messages
          ++ [{ role := "user", text := "@zzz hi", timestamp := 4 }] } ∧
    (roomState.sendMessage "@zzz hi" [alice, bob] "main" 4 "rr").sent
      = roomState.sent ∧
    (roomState.sendMessage "@zzz hi" [alice, bob] "main" 4 "rr").processingAgents
      = roomState.processingAgents := by
  obtain ⟨h1, h2, h3, -, -, -⟩ :=
    unmatched_mentions_no_delivery roomState "@zzz hi" [alice, bob] "main" 4 "rr"
      (by decide) (by decide)
  exact ⟨h1, h2, h3⟩

/-- A JSON value as returned by a successful JSON.parse, including null.
This raw layer exists because the try/catch in ws.onmessage protects
only JSON.parse itself: parseable but ill-typed values reach the handler
body, where property access on null and array-method calls on non-arrays
throw TypeErrors past the handler. Leaf values of unexpected primitive
type in positions where the handler expects a string (a numeric runId,
text or message detail) are modeled as absent: the JS code would carry
or stringify them without throwing, a path no claim depends on. -/
inductive JsVal where
  | null
  | boolv (b : Bool)
  | num (n : Int)
  | str (s : String)
  | arr (elems : List JsVal)
  | obj (fields : List (String × JsVal))

/-- JS property access v.k for a non-null value: the field of an object,
undefined (none) otherwise. Access on a null value throws and is handled
explicitly at each access site. -/
def jsField : JsVal → String → Option JsVal
  | .obj fields, k => List.lookup k fields
  | _, _ => none

/-- JS truthiness of a possibly-undefined value. -/
def jsTruthy : Option JsVal → Bool
  | none => false
  | some .null => false
  | some (.boolv b) => b
  | some (.num n) => !(n == 0)
  | some (.str s) => !(s == "")
  | some (.arr _) => true
  | some (.obj _) => true

/-- Strict equality of a possibly-undefined value with a string
literal. -/
def jsIsStr : Option JsVal → String → Bool
  | some (.str t), s => t == s
  | _, _ => false

/-- Strict equality of a possibly-undefined value with a ref holding a
string or null: null === null is true, undefined === null is false. -/
def jsStrEqOpt : Option JsVal → Option String → Bool
  | some (.str t), some u => t == u
  | some .null, none => true
  | _, _ => false

/-- The string value of a possibly-undefined field, with a default for
absent or non-string values. -/
def jsStrOr (v : Option JsVal) (d : String) : String :=
  match v with
  | some (.str t) => t
  | _ => d

/-- frame.error?.message with the Connection rejected fallback: optional
chaining tolerates a missing, null or primitive error value. -/
def jsErrMsg : Option JsVal → String
  | some (.obj fields) =>
    match List.lookup "message" fields with
    | some (.str t) => t
    | _ => "Connection rejected"
  | _ => "Connection rejected"

/-- One content part as read by the JS filter on c.type and c.text: a
null part throws at c.type, a primitive part has undefined fields. -/
def decodeContentPart : JsVal → Except String ContentPart
  | .null => .error "TypeError"
  | .obj fields => .ok
      { type := jsStrOr (List.lookup "type" fields) ""
        text := match List.lookup "text" fields with
          | some (.str t) => some t
          | _ => none }
  | _ => .ok { type := "", text := none }

/-- The message field of a chat payload as read by
extractTextFromMessage: the optional chain message?.content tolerates a
missing, null or primitive message, a falsy content is treated as
absent, and a truthy non-array content throws at content.filter. -/
def decodeMessageField : Option JsVal → Except String (Option ChatMessage)
  | some (.obj fields) =>
    match List.lookup "content" fields with
    | some (.arr items) =>
      (items.mapM decodeContentPart).map
        (fun parts => some { role := jsStrOr (List.lookup "role" fields) "",
                             content := parts, timestamp := 0 })
    | some cv => if jsTruthy (some cv) then .error "TypeError" else .ok none
    | none => .ok none
  | _ => .ok none

/-- One session.list entry as read by the sessions mapping: a null entry
throws at s.sessionKey, a primitive entry has undefined fields. -/
def decodeSessionEntry : JsVal → Except String SessionInfo
  | .null => .error "TypeError"
  | .obj fields => .ok
      { sessionKey := jsStrOr (List.lookup "sessionKey" fields) ""
        label := match List.lookup "label" fields with
          | some (.str t) => some t
          | _ => none
        lastMessage := match List.lookup "lastMessage" fields with
          | some (.str t) => some t
          | _ => none
        lastTimestamp := match List.lookup "lastTimestamp" fields with
          | some (.num n) => some n.toNat
          | _ => none }
  | _ => .ok { sessionKey := "", label := none, lastMessage := none,
               lastTimestamp := none }

/-- One history entry: the role filter runs first and throws on a null
entry at m.role; for an entry passing the role filter the mapping reads
m.content.filter, which throws unless content is an array; for a
filtered-out entry content is never read. -/
def decodeHistoryEntry : JsVal → Except String HistoryEntry
  | .null => .error "TypeError"
  | .obj fields =>
    let role := jsStrOr (List.lookup "role" fields) ""
    let ts : Option Nat := match List.lookup "timestamp" fields with
      | some (.num n) => some n.toNat
      | _ => none
    if role == "user" || role == "assistant" then
      match List.lookup "content" fields with
      | some (.arr items) =>
        (items.mapM decodeContentPart).map
          (fun parts => { role := role, content := parts, timestamp := ts })
      | _ => .error "TypeError"
    else .ok { role := role, content := [], timestamp := ts }
  | _ => .ok { role := "", content := [], timestamp := none }

/-- ws.onmessage from useGateway over the raw JSON.parse result. The
data argument is none when JSON.parse throws (caught, silent return). A
parsed value of null throws at the frame.type access; a chat event whose
payload is missing or null throws at payload.state; ill-typed arrays and
entries throw inside the response mappings. Recognized well-typed chat
events delegate to handleMessage; an Except.error result is a TypeError
escaping the handler. -/
def GatewayState.handleRaw (s : GatewayState) (data : Option JsVal) (now : Nat) :
    Except String GatewayState :=
  match data with
  | none => .ok s
  | some .null => .error "TypeError"
  | some v =>
    let tval := jsField v "type"
    if jsIsStr tval "res" then
      let idval := jsField v "id"
      if jsStrEqOpt idval s.connectId then
        if jsTruthy (jsField v "ok") then
          let (histFrame, c1) := makeSessionHistoryFrame s.closureSessionKey s.counter
          let (listFrame, c2) := makeSessionListFrame c1
          .ok { s with
                status := .connected
                historyId := some histFrame.id
                sessionListId := some listFrame.id
                counter := c2
                sent := s.sent ++ [histFrame, listFrame] }
        else
          .ok { s with
                status := .error
                error := some (jsErrMsg (jsField v "error")) }
      else if jsStrEqOpt idval s.sessionListId then
        if jsTruthy (jsField v "ok") && jsTruthy (jsField v "payload") then
          match jsField v "payload" with
          | some pv =>
            let sval := jsField pv "sessions"
            if jsTruthy sval then
              match sval with
              | some (.arr items) =>
                (items.mapM decodeSessionEntry).map
                  (fun list => { s with sessions := list })
              | _ => .error "TypeError"
            else .ok s
          | none => .ok s
        else .ok s
      else if jsStrEqOpt idval s.historyId then
        if jsTruthy (jsField v "ok") && jsTruthy (jsField v "payload") then
          match jsField v "payload" with
          | some pv =>
            let mval := jsField pv "messages"
            if jsTruthy mval then
              match mval with
              | some (.arr items) =>
                (items.mapM decodeHistoryEntry).map (fun list =>
                  { s with messages :=
                      (((list.filter
                          (fun m => m.role == "user" || m.role == "assistant")).map
                        (fun m => ({ role := m.role, text := joinTextParts m.content,
                                     timestamp := m.timestamp.getD now } : Message))).filter
                        (fun m => m.text != "")) })
              | _ => .error "TypeError"
            else .ok s
          | none => .ok s
        else .ok s
      else .ok s
    else if jsIsStr tval "event" && jsIsStr (jsField v "event") "chat" then
      match jsField v "payload" with
      | none => .error "TypeError"
      | some .null => .error "TypeError"
      | some (.obj pf) =>
        let st := jsStrOr (List.lookup "state" pf) ""
        let runId := jsStrOr (List.lookup "runId" pf) ""
        if st == "delta" || st == "final" then
          (decodeMessageField (List.lookup "message" pf)).map (fun msg =>
            s.handleMessage (some (.event "chat"
              { runId := runId, sessionKey := "", seq := 0, state := st,
                message := msg })) now)
        else
          .ok (s.handleMessage (some (.event "chat"
            { runId := runId, sessionKey := "", seq := 0, state := st,
              message := none })) now)
      | some _ => .ok s
    else .ok s

lemma jsIsStr_ne {v : Option JsVal} {a : String} (b : String)
    (h : jsIsStr v a = true) (hab : a ≠ b) : jsIsStr v b = false := by
  match v with
  | none => simp [jsIsStr] at h
  | some .null => simp [jsIsStr] at h
  | some (.boolv x) => simp [jsIsStr] at h
  | some (.num x) => simp [jsIsStr] at h
  | some (.arr x) => simp [jsIsStr] at h
  | some (.obj x) => simp [jsIsStr] at h
  | some (.str t) =>
    simp [jsIsStr] at h
    subst h
    simp [jsIsStr]
    exact hab

/-- Claim C8 counterexample: the try/catch protects only JSON.parse —
the inbound string null parses successfully to JSON null and the handler
then throws a TypeError at the frame.type access instead of dropping the
message, and a chat event without a payload throws at payload.state. -/
theorem handler_throws_counterexample :
    initialGateway.handleRaw (some JsVal.null) 0 = Except.error "TypeError" ∧
    initialGateway.handleRaw (some JsVal.null) 0 ≠ Except.ok initialGateway ∧
    initialGateway.handleRaw (some (JsVal.obj [("type", JsVal.str "event"),
      ("event", JsVal.str "chat")])) 0 = Except.error "TypeError" := by
  refine ⟨rfl, ?_, rfl⟩
  intro h
  have h2 : (Except.error "TypeError" : Except String GatewayState)
      = Except.ok initialGateway := h
  exact Except.noConfusion h2

/-- Claim C8 amended: an inbound message whose data fails to parse as
JSON is dropped silently with no state change, and so is any parsed
frame the handler does not recognize — a primitive or array frame, an
object whose type is neither res nor event, an event that is not a chat
event, and a response matching no tracked request id. The handler is not
exception-safe for every inbound string, however: the try/catch protects
only JSON.parse, so a message that parses to JSON null throws a
TypeError at the frame.type access, and a chat event whose payload is
missing or null throws at the payload.state access. -/
theorem malformed_frame_raw :
    (∀ (s : GatewayState) (now : Nat), s.handleRaw none now = .ok s) ∧
    (∀ (s : GatewayState) (now : Nat) (b : Bool) (n : Int) (t : String)
        (l : List JsVal),
      s.handleRaw (some (.boolv b)) now = .ok s ∧
      s.handleRaw (some (.num n)) now = .ok s ∧
      s.handleRaw (some (.str t)) now = .ok s ∧
      s.handleRaw (some (.arr l)) now = .ok s) ∧
    (∀ (s : GatewayState) (now : Nat) (fields : List (String × JsVal)),
      jsIsStr (jsField (.obj fields) "type") "res" = false →
      jsIsStr (jsField (.obj fields) "type") "event" = false →
      s.handleRaw (some (.obj fields)) now = .ok s) ∧
    (∀ (s : GatewayState) (now : Nat) (fields : List (String × JsVal)),
      jsIsStr (jsField (.obj fields) "type") "res" = false →
      jsIsStr (jsField (.obj fields) "event") "chat" = false →
      s.handleRaw (some (.obj fields)) now = .ok s) ∧
    (∀ (s : GatewayState) (now : Nat) (fields : List (String × JsVal)),
      jsIsStr (jsField (.obj fields) "type") "res" = true →
      jsStrEqOpt (jsField (.obj fields) "id") s.connectId = false →
      jsStrEqOpt (jsField (.obj fields) "id") s.sessionListId = false →
      jsStrEqOpt (jsField (.obj fields) "id") s.historyId = false →
      s.handleRaw (some (.obj fields)) now = .ok s) ∧
    (∀ (s : GatewayState) (now : Nat),
      s.handleRaw (some JsVal.null) now = .error "TypeError") ∧
    (∀ (s : GatewayState) (now : Nat) (fields : List (String × JsVal)),
      jsIsStr (jsField (.obj fields) "type") "event" = true →
      jsIsStr (jsField (.obj fields) "event") "chat" = true →
      List.lookup "payload" fields = none →
      s.handleRaw (some (.obj fields)) now = .error "TypeError") ∧
    (∀ (s : GatewayState) (now : Nat) (fields : List (String × JsVal)),
      jsIsStr (jsField (.obj fields) "type") "event" = true →
      jsIsStr (jsField (.obj fields) "event") "chat" = true →
      List.lookup "payload" fields = some JsVal.null →
      s.handleRaw (some (.obj fields)) now = .error "TypeError") := by
  refine ⟨fun _ _ => rfl,
    fun _ _ _ _ _ _ => ⟨rfl, rfl, rfl, rfl⟩, ?_, ?_, ?_, fun _ _ => rfl, ?_, ?_⟩
  · intro s now fields h1 h2
    unfold GatewayState.handleRaw
    simp [h1, h2]
  · intro s now fields h1 h2
    unfold GatewayState.handleRaw
    simp [h1, h2]
  · intro s now fields h1 h2 h3 h4
    unfold GatewayState.handleRaw
    simp [h1, h2, h3, h4]
  · intro s now fields h1 h2 h3
    have hres := jsIsStr_ne "res" h1 (by decide)
    unfold GatewayState.handleRaw
    simp only [jsField] at hres h1 h2
    simp [jsField, hres, h1, h2, h3]
  · intro s now fields h1 h2 h3
    have hres := jsIsStr_ne "res" h1 (by decide)
    unfold GatewayState.handleRaw
    simp only [jsField] at hres h1 h2
    simp [jsField, hres, h1, h2, h3]

/-- Witness for the amended C8: a primitive frame, an object of unknown
type, a non-chat event and an unmatched response are all dropped
silently by the fresh session, while a chat event with a null payload
throws. -/
theorem malformed_frame_raw_witness :
    initialGateway.handleRaw (some (JsVal.str "x")) 2 = .ok initialGateway ∧
    initialGateway.handleRaw (some (JsVal.obj [("type", JsVal.str "nonsense")])) 2
      = .ok initialGateway ∧
    initialGateway.handleRaw (some (JsVal.obj [("type", JsVal.str "event"),
      ("event", JsVal.str "presence")])) 2 = .ok initialGateway ∧
    initialGateway.handleRaw (some (JsVal.obj [("type", JsVal.str "res"),
      ("id", JsVal.str "42"), ("ok", JsVal.boolv true)])) 2 = .ok initialGateway ∧
    initialGateway.handleRaw (some (JsVal.obj [("type", JsVal.str "event"),
      ("event", JsVal.str "chat"), ("payload", JsVal.null)])) 2
      = .error "TypeError" :=
  ⟨(malformed_frame_raw.2.1 initialGateway 2 true 0 "x" []).2.2.1,
   malformed_frame_raw.2.2.1 initialGateway 2
     [("type", JsVal.str "nonsense")] rfl rfl,
   malformed_frame_raw.2.2.2.1 initialGateway 2
     [("type", JsVal.str "event"), ("event", JsVal.str "presence")] rfl rfl,
   malformed_frame_raw.2.2.2.2.1 initialGateway 2
     [("type", JsVal.str "res"), ("id", JsVal.str "42"), ("ok", JsVal.boolv true)]
     rfl rfl rfl rfl,
   malformed_frame_raw.2.2.2.2.2.2.2 initialGateway 2
     [("type", JsVal.str "event"), ("event", JsVal.str "chat"),
      ("payload", JsVal.null)] rfl rfl rfl⟩
